import Mathlib

set_option maxRecDepth 100000
set_option maxHeartbeats 1000000

/-!
Verification of the cost-aggregation core of the user-subscriptions service:
the period-format validator, the predicate/parameter builder of the cost
query, and the service-level orchestration (validation, store read, error
propagation) for create, update and cost-aggregation operations.

Conventions of the embedding:
* Go errors are strings (the exact messages produced by the source).
* Fallible operations return `Except String α`.
* The database connection is abstracted as a function from the generated
  statement text and ordered parameter list to a store result; service
  functions additionally report whether the store was consulted.
-/

namespace Subs

/-- A UUID value; only equality (in particular comparison with the nil UUID)
matters to the verified logic, so it is abstracted as a natural number
standing for the 128-bit value. -/
structure UUID where
  val : Nat
deriving DecidableEq, Repr

/-- `uuid.Nil`, the all-zero UUID. -/
def uuidNil : UUID := ⟨0⟩

/-- A query parameter as accumulated by the repository's `args` slice:
either a string value (periods, service name) or a UUID value. -/
inductive Param where
  | pstr (s : String)
  | puid (u : UUID)
deriving DecidableEq, Repr

/-! ## Regular-expression matching for the period pattern

The source validates periods with Go's `regexp.MatchString` on the pattern
`^\d{2}-\d{4}$`.  We embed a small deterministic regex fragment (literals,
the ASCII digit class `\d`, and sequencing) sufficient to express that
anchored pattern, and a consumer-style matcher. -/

/-- Regex abstract syntax: empty word, one ASCII digit (`\d`), one literal
character, and sequencing. -/
inductive RE where
  | eps : RE
  | anyDigit : RE
  | lit : Char → RE
  | seq : RE → RE → RE

/-- Run a regex on a character list, returning the remaining input on
success.  All constructs here are deterministic, so a single residual
suffices. -/
def reConsume : RE → List Char → Option (List Char)
  | .eps, l => some l
  | .anyDigit, [] => none
  | .anyDigit, c :: rest => if c.isDigit then some rest else none
  | .lit _, [] => none
  | .lit ch, c :: rest => if c = ch then some rest else none
  | .seq a b, l =>
    match reConsume a l with
    | some rest => reConsume b rest
    | none => none

/-- Anchored (`^...$`) full match: the regex must consume the whole string. -/
def reMatchFull (r : RE) (s : String) : Bool :=
  match reConsume r s.data with
  | some [] => true
  | _ => false

/-- The pattern `^\d{2}-\d{4}$` from `service.validateDateFormat`, with the
bounded repetitions unfolded. -/
def mmYYYYPattern : RE :=
  .seq .anyDigit (.seq .anyDigit (.seq (.lit '-')
    (.seq .anyDigit (.seq .anyDigit (.seq .anyDigit (.seq .anyDigit .eps))))))

/-- `service.validateDateFormat`: empty strings are rejected with a
dedicated message, all other strings are matched against `^\d{2}-\d{4}$`. -/
def validateDateFormat (date : String) : Except String Unit :=
  if date = "" then .error "date cannot be empty"
  else if reMatchFull mmYYYYPattern date then .ok ()
  else .error "date must be in MM-YYYY format"

/-- The shape "two digits, hyphen, four digits", stated directly on the
character list; used to express what the source's regex accepts. -/
def shapeMMYYYY (s : String) : Bool :=
  match s.data with
  | [a, b, h, c, d, e, f] =>
    a.isDigit && b.isDigit && (h == '-') && c.isDigit && d.isDigit && e.isDigit && f.isDigit
  | _ => false

/-- The errors the period validator can produce; the specification's
`InvalidPeriodFormat` taxonomy covers both (it explicitly includes the
empty string). -/
def InvalidPeriodFormat (e : String) : Prop :=
  e = "date cannot be empty" ∨ e = "date must be in MM-YYYY format"

/-! ## The cost-aggregation query builder (`repository.GetCostByPeriod`) -/

/-- The unconditional base statement of the cost query. -/
def baseCostQuery : String :=
  "SELECT COALESCE(SUM(price), 0) as total_cost, COUNT(*) as count FROM subscriptions WHERE 1=1"

/-- The query builder of `repository.GetCostByPeriod`: starting from the
base statement, appends one predicate and one parameter per present filter,
in the source's order (start date, end date, user id, service name),
numbering placeholders with a running counter that starts at 1. -/
def getCostByPeriodQuery (startDate endDate : String) (userID : Option UUID)
    (serviceName : Option String) : String × List Param :=
  let q0 := baseCostQuery
  let a0 : List Param := []
  let n0 : Nat := 1
  let r1 :=
    if startDate ≠ "" then
      (q0 ++ " AND start_date >= $" ++ toString n0, a0 ++ [Param.pstr startDate], n0 + 1)
    else (q0, a0, n0)
  let r2 :=
    if endDate ≠ "" then
      (r1.1 ++ " AND (end_date IS NULL OR end_date >= $" ++ toString r1.2.2 ++ ")",
       r1.2.1 ++ [Param.pstr endDate], r1.2.2 + 1)
    else r1
  let r3 :=
    match userID with
    | some u => (r2.1 ++ " AND user_id = $" ++ toString r2.2.2, r2.2.1 ++ [Param.puid u], r2.2.2 + 1)
    | none => r2
  match serviceName with
  | some s => (r3.1 ++ " AND service_name = $" ++ toString r3.2.2, r3.2.1 ++ [Param.pstr s])
  | none => (r3.1, r3.2.1)

/-- The parameter list the specification prescribes: the values of the
present filters in the fixed order start, end, user, service. -/
def specCostParams (startDate endDate : String) (userID : Option UUID)
    (serviceName : Option String) : List Param :=
  (if startDate = "" then [] else [Param.pstr startDate])
    ++ (if endDate = "" then [] else [Param.pstr endDate])
    ++ (match userID with | some u => [Param.puid u] | none => [])
    ++ (match serviceName with | some s => [Param.pstr s] | none => [])

/-! ## Scanning placeholders out of generated statement text -/

/-- Accumulator for the placeholder scanner: the index being read (if we
are inside a `$n`) and the indices found so far, in order. -/
structure ScanAcc where
  cur : Option Nat
  found : List Nat

/-- One step of the placeholder scanner. -/
def scanStep (acc : ScanAcc) (c : Char) : ScanAcc :=
  match acc.cur with
  | some n =>
    if c.isDigit then { acc with cur := some (n * 10 + (c.toNat - 48)) }
    else if c = '$' then { cur := some 0, found := acc.found ++ [n] }
    else { cur := none, found := acc.found ++ [n] }
  | none =>
    if c = '$' then { acc with cur := some 0 }
    else acc

/-- All `$n` placeholder indices occurring in a statement, in textual
order. -/
def scanPlaceholders (s : String) : List Nat :=
  let acc := s.data.foldl scanStep ⟨none, []⟩
  match acc.cur with
  | some n => acc.found ++ [n]
  | none => acc.found

/-- Does `p` occur at the start of `l`? -/
def startsWithAux : List Char → List Char → Bool
  | [], _ => true
  | _ :: _, [] => false
  | p :: ps, c :: cs => p == c && startsWithAux ps cs

/-- Does `pat` occur contiguously anywhere in `l`? -/
def hasSubstr (pat : List Char) : List Char → Bool
  | [] => pat.isEmpty
  | c :: cs => startsWithAux pat (c :: cs) || hasSubstr pat cs

/-- The end-period predicate fragment the builder appends for placeholder
index `k`. -/
def endDateFragment (k : Nat) : String :=
  " AND (end_date IS NULL OR end_date >= $" ++ toString k ++ ")"

/-! ## Data model -/

/-- A persisted subscription row (`model.Subscription`); timestamps are
abstracted as integers. -/
structure Subscription where
  id : Int
  serviceName : String
  price : Int
  userID : UUID
  startDate : String
  endDate : Option String
  createdAt : Int
  updatedAt : Int
deriving DecidableEq, Repr

/-- `model.CreateSubscriptionRequest`. -/
structure CreateSubscriptionRequest where
  serviceName : String
  price : Int
  userID : UUID
  startDate : String
  endDate : Option String
deriving DecidableEq, Repr

/-- `model.UpdateSubscriptionRequest` (same fields as the create request,
kept as a separate type like the source). -/
structure UpdateSubscriptionRequest where
  serviceName : String
  price : Int
  userID : UUID
  startDate : String
  endDate : Option String
deriving DecidableEq, Repr

/-- `model.CostResponse`. -/
structure CostResponse where
  totalCost : Int
  count : Int
deriving DecidableEq, Repr

/-! ## Repository and service operations

The live database connection is abstracted as a function `db` from the
generated statement text and ordered parameter list to the store's answer;
the service-level functions also report whether the store was consulted,
so that "fail fast, no store access" properties can be stated. -/

/-- `repository.GetCostByPeriod`: builds the query, issues it against the
store, and wraps a store failure with the operation name. -/
def repoGetCostByPeriod (startDate endDate : String) (userID : Option UUID)
    (serviceName : Option String)
    (db : String → List Param → Except String (Int × Int)) : Except String (Int × Int) :=
  let qa := getCostByPeriodQuery startDate endDate userID serviceName
  match db qa.1 qa.2 with
  | .error e => .error ("failed to calculate cost: " ++ e)
  | .ok r => .ok r

/-- The validation stage of `service.GetCostByPeriod`: both periods empty
is rejected, the start period is validated unconditionally, the end period
only when non-empty. -/
def costValidation (startDate endDate : String) : Except String Unit :=
  if startDate = "" ∧ endDate = "" then
    .error "at least one date parameter is required"
  else
    match validateDateFormat startDate with
    | .error e => .error e
    | .ok _ => if endDate ≠ "" then validateDateFormat endDate else .ok ()

/-- `service.GetCostByPeriod`: validation, then one aggregate read through
the repository; the second component records whether the store read was
issued. -/
def serviceGetCostByPeriod (startDate endDate : String) (userID : Option UUID)
    (serviceName : Option String)
    (db : String → List Param → Except String (Int × Int)) :
    Except String CostResponse × Bool :=
  if startDate = "" ∧ endDate = "" then
    (.error "at least one date parameter is required", false)
  else
    match validateDateFormat startDate with
    | .error e => (.error e, false)
    | .ok _ =>
      match (if endDate ≠ "" then validateDateFormat endDate else .ok ()) with
      | .error e => (.error e, false)
      | .ok _ =>
        match repoGetCostByPeriod startDate endDate userID serviceName db with
        | .error e => (.error e, true)
        | .ok r => (.ok { totalCost := r.1, count := r.2 }, true)

/-- `service.validateSubscriptionRequest`: non-empty service name, strictly
positive price, non-nil user id, valid start period, and a valid end period
whenever one is present and non-empty. -/
def validateSubscriptionRequest (req : CreateSubscriptionRequest) : Except String Unit :=
  if req.serviceName = "" then .error "service_name is required"
  else if req.price ≤ 0 then .error "price must be greater than 0"
  else if req.userID = uuidNil then .error "user_id is required and must be valid UUID"
  else
    match validateDateFormat req.startDate with
    | .error e => .error e
    | .ok _ =>
      match req.endDate with
      | some e => if e ≠ "" then validateDateFormat e else .ok ()
      | none => .ok ()

/-- `service.CreateSubscription`: validate, then hand the request to the
repository; the second component records the request passed to the
repository, if any. -/
def serviceCreateSubscription (req : CreateSubscriptionRequest)
    (repo : CreateSubscriptionRequest → Except String Subscription) :
    Except String Subscription × Option CreateSubscriptionRequest :=
  match validateSubscriptionRequest req with
  | .error e => (.error e, none)
  | .ok _ => (repo req, some req)

/-- The field-for-field conversion `service.UpdateSubscription` performs
before reusing the creation validator. -/
def toCreateRequest (req : UpdateSubscriptionRequest) : CreateSubscriptionRequest :=
  { serviceName := req.serviceName, price := req.price, userID := req.userID,
    startDate := req.startDate, endDate := req.endDate }

/-- `service.UpdateSubscription`: runs the full creation validation on the
update request, then hands id and request to the repository; the second
component records what was passed to the repository, if anything. -/
def serviceUpdateSubscription (id : Int) (req : UpdateSubscriptionRequest)
    (repo : Int → UpdateSubscriptionRequest → Except String Subscription) :
    Except String Subscription × Option (Int × UpdateSubscriptionRequest) :=
  match validateSubscriptionRequest (toCreateRequest req) with
  | .error e => (.error e, none)
  | .ok _ => (repo id req, some (id, req))

/-! ## Row-level semantics of the generated predicates

Modelled from the spec: the SQL engine that evaluates the generated
conditions is external to the repository, so the row-filter meaning of the
generated `WHERE` conjunction (string comparison `>=`, `IS NULL`, equality)
is stated here as a Lean predicate over a row. -/

/-- Modelled from the spec: evaluation of the generated end-period
condition `(end_date IS NULL OR end_date >= v)` on a row whose stored end
period is `rowEnd` (`none` = SQL NULL = open-ended subscription). -/
def endCondEval (rowEnd : Option String) (v : String) : Bool :=
  match rowEnd with
  | none => true
  | some d => decide (v ≤ d)

/-- Modelled from the spec: the conjunction of the generated predicates of
the cost query, evaluated on one subscription row. -/
def rowMatchesCost (startDate endDate : String) (userID : Option UUID)
    (serviceName : Option String) (row : Subscription) : Bool :=
  (startDate == "" || decide (startDate ≤ row.startDate))
    && (endDate == "" || endCondEval row.endDate endDate)
    && (match userID with | none => true | some u => row.userID == u)
    && (match serviceName with | none => true | some s => row.serviceName == s)

end Subs

namespace Subs

/-! ## Helper lemmas: the period regex and the shape it accepts -/

lemma shape_empty_false : shapeMMYYYY "" = false := rfl

/-- The embedded regex `^\d{2}-\d{4}$` accepts exactly the strings of shape
"two digits, hyphen, four digits". -/
lemma reMatchFull_eq_shape (s : String) : reMatchFull mmYYYYPattern s = shapeMMYYYY s := by
  unfold reMatchFull shapeMMYYYY mmYYYYPattern
  obtain ⟨l⟩ := s
  simp only [String.data]
  rcases l with _ | ⟨a, _ | ⟨b, _ | ⟨h, _ | ⟨c, _ | ⟨d, _ | ⟨e, _ | ⟨f, _ | ⟨g, rest⟩⟩⟩⟩⟩⟩⟩⟩
  · rfl
  · by_cases ha : a.isDigit = true <;> simp_all [reConsume]
  · by_cases ha : a.isDigit = true <;> by_cases hb : b.isDigit = true <;> simp_all [reConsume]
  · by_cases ha : a.isDigit = true <;> by_cases hb : b.isDigit = true <;>
      by_cases hh : h = '-' <;> simp_all [reConsume]
  · by_cases ha : a.isDigit = true <;> by_cases hb : b.isDigit = true <;>
      by_cases hh : h = '-' <;> by_cases hc : c.isDigit = true <;> simp_all [reConsume]
  · by_cases ha : a.isDigit = true <;> by_cases hb : b.isDigit = true <;>
      by_cases hh : h = '-' <;> by_cases hc : c.isDigit = true <;>
      by_cases hd : d.isDigit = true <;> simp_all [reConsume]
  · by_cases ha : a.isDigit = true <;> by_cases hb : b.isDigit = true <;>
      by_cases hh : h = '-' <;> by_cases hc : c.isDigit = true <;>
      by_cases hd : d.isDigit = true <;> by_cases he : e.isDigit = true <;>
      simp_all [reConsume]
  · by_cases ha : a.isDigit = true <;> by_cases hb : b.isDigit = true <;>
      by_cases hh : h = '-' <;> by_cases hc : c.isDigit = true <;>
      by_cases hd : d.isDigit = true <;> by_cases he : e.isDigit = true <;>
      by_cases hf : f.isDigit = true <;> simp_all [reConsume]
  · by_cases ha : a.isDigit = true <;> by_cases hb : b.isDigit = true <;>
      by_cases hh : h = '-' <;> by_cases hc : c.isDigit = true <;>
      by_cases hd : d.isDigit = true <;> by_cases he : e.isDigit = true <;>
      by_cases hf : f.isDigit = true <;> simp_all [reConsume]

/-- The period validator succeeds exactly on shape-correct strings. -/
lemma validateDateFormat_ok_iff (s : String) :
    validateDateFormat s = .ok () ↔ shapeMMYYYY s = true := by
  unfold validateDateFormat
  rcases eq_or_ne s "" with hs | hs
  · subst hs; simp [shape_empty_false]
  · simp only [hs, if_false, reMatchFull_eq_shape]
    rcases hb : shapeMMYYYY s with _ | _ <;> simp

/-- The exact error the validator produces on each rejected string. -/
lemma validateDateFormat_error (s : String) (hs : shapeMMYYYY s = false) :
    validateDateFormat s
      = .error (if s = "" then "date cannot be empty" else "date must be in MM-YYYY format") := by
  unfold validateDateFormat
  rcases eq_or_ne s "" with h | h
  · simp [h]
  · simp [h, reMatchFull_eq_shape, hs]

/-! ## Helper lemmas: shape of the generated cost query -/

/-- The statement text the builder produces, as a function of which of the
four filters are present. -/
def queryText (hasStart hasEnd hasUid hasSname : Bool) : String :=
  let q0 := baseCostQuery
  let n0 : Nat := 1
  let r1 := if hasStart then (q0 ++ " AND start_date >= $" ++ toString n0, n0 + 1) else (q0, n0)
  let r2 :=
    if hasEnd then
      (r1.1 ++ " AND (end_date IS NULL OR end_date >= $" ++ toString r1.2 ++ ")", r1.2 + 1)
    else r1
  let r3 := if hasUid then (r2.1 ++ " AND user_id = $" ++ toString r2.2, r2.2 + 1) else r2
  if hasSname then r3.1 ++ " AND service_name = $" ++ toString r3.2 else r3.1

/-- How many filters are present. -/
def paramCount (a b c d : Bool) : Nat :=
  (cond a 1 0) + (cond b 1 0) + (cond c 1 0) + (cond d 1 0)

/-- The builder's output, in closed form: the statement text is determined
by which filters are present, and the parameter list is the present filter
values in the order start, end, user, service. -/
lemma builder_eq (startD endD : String) (uid : Option UUID) (sname : Option String) :
    getCostByPeriodQuery startD endD uid sname
      = (queryText (startD != "") (endD != "") uid.isSome sname.isSome,
         specCostParams startD endD uid sname) := by
  by_cases hs : startD = "" <;> by_cases he : endD = "" <;>
    rcases uid with _ | u <;> rcases sname with _ | s <;>
    simp [getCostByPeriodQuery, queryText, specCostParams, hs, he]

lemma specCostParams_length (startD endD : String) (uid : Option UUID) (sname : Option String) :
    (specCostParams startD endD uid sname).length
      = paramCount (startD != "") (endD != "") uid.isSome sname.isSome := by
  by_cases hs : startD = "" <;> by_cases he : endD = "" <;>
    rcases uid with _ | u <;> rcases sname with _ | s <;>
    simp [specCostParams, paramCount, hs, he, Bool.cond_eq_ite, bne_iff_ne]

lemma scan_queryText (a b c d : Bool) :
    scanPlaceholders (queryText a b c d) = List.range' 1 (paramCount a b c d) := by
  cases a <;> cases b <;> cases c <;> cases d <;> decide

lemma count_queryText (a b c d : Bool) :
    ((queryText a b c d).data.count '$') = paramCount a b c d := by
  cases a <;> cases b <;> cases c <;> cases d <;> decide

lemma base_queryText (a b c d : Bool) :
    startsWithAux baseCostQuery.data (queryText a b c d).data = true := by
  cases a <;> cases b <;> cases c <;> cases d <;> decide

lemma endfrag_queryText (a c d : Bool) :
    hasSubstr (endDateFragment (if a then 2 else 1)).data (queryText a true c d).data = true := by
  cases a <;> cases c <;> cases d <;> decide

lemma endabsent_queryText (a c d : Bool) :
    hasSubstr "end_date".data (queryText a false c d).data = false := by
  cases a <;> cases c <;> cases d <;> decide

end Subs

namespace Subs

/-! ## Service-level structure lemma -/

/-- `service.GetCostByPeriod` is its validation stage followed, on success,
by the repository read. -/
lemma service_eq_validation_then_store (startD endD : String) (uid : Option UUID)
    (sname : Option String) (db : String → List Param → Except String (Int × Int)) :
    serviceGetCostByPeriod startD endD uid sname db
      = match costValidation startD endD with
        | .error e => (.error e, false)
        | .ok _ =>
          match repoGetCostByPeriod startD endD uid sname db with
          | .error e => (.error e, true)
          | .ok r => (.ok { totalCost := r.1, count := r.2 }, true) := by
  unfold serviceGetCostByPeriod costValidation
  by_cases h0 : startD = "" ∧ endD = ""
  · simp [h0]
  · simp only [h0, if_false]
    rcases hv : validateDateFormat startD with e | u
    · simp
    · rcases hv2 : (if endD ≠ "" then validateDateFormat endD else .ok ()) with e | u2 <;> simp

lemma where11_queryText (a b c d : Bool) :
    hasSubstr "WHERE 1=1".data (queryText a b c d).data = true := by
  cases a <;> cases b <;> cases c <;> cases d <;> decide

/-! ## Claim theorems -/

/-- C1: the cost-query builder appends predicates and parameters in the
fixed order start, end, user, service (restricted to the present filters),
placeholder `$i` refers to the i-th parameter (the indices scanned from the
statement text are exactly 1..n for n parameters), and in particular with
start, user and service but no end the parameter list is
[start, user, service], and with an end period also present it is
[start, end, user, service]. -/
theorem costQuery_param_order (startD endD : String) (uid : Option UUID)
    (sname : Option String) :
    (getCostByPeriodQuery startD endD uid sname).2 = specCostParams startD endD uid sname
    ∧ scanPlaceholders (getCostByPeriodQuery startD endD uid sname).1
        = List.range' 1 (getCostByPeriodQuery startD endD uid sname).2.length
    ∧ (∀ (st : String) (u : UUID) (s : String), st ≠ "" →
        (getCostByPeriodQuery st "" (some u) (some s)).2
          = [Param.pstr st, Param.puid u, Param.pstr s])
    ∧ (∀ (st en : String) (u : UUID) (s : String), st ≠ "" → en ≠ "" →
        (getCostByPeriodQuery st en (some u) (some s)).2
          = [Param.pstr st, Param.pstr en, Param.puid u, Param.pstr s]) := by
  refine ⟨?_, ?_, ?_, ?_⟩
  · rw [builder_eq]
  · rw [builder_eq]
    simp only [scan_queryText, specCostParams_length]
  · intro st u s hst
    rw [builder_eq]
    simp [specCostParams, hst]
  · intro st en u s hst hen
    rw [builder_eq]
    simp [specCostParams, hst, hen]

/-- C1 witness: concrete four-filter call. -/
theorem costQuery_param_order_witness :
    (getCostByPeriodQuery "01-2025" "02-2025" (some ⟨7⟩) (some "Netflix")).2
      = [Param.pstr "01-2025", Param.pstr "02-2025", Param.puid ⟨7⟩, Param.pstr "Netflix"] :=
  (costQuery_param_order "01-2025" "02-2025" (some ⟨7⟩) (some "Netflix")).2.2.2
    "01-2025" "02-2025" ⟨7⟩ "Netflix" (by decide) (by decide)

/-- C2: the period validator accepts a string iff it matches the anchored
pattern two digits, hyphen, four digits (equivalently, iff it has that
shape — month values such as 13 included), and every rejected string —
the empty string among them — gets an error of the invalid-period-format
class. -/
theorem validator_accepts_iff_shape (s : String) :
    (validateDateFormat s = .ok () ↔ shapeMMYYYY s = true)
    ∧ (validateDateFormat s = .ok () ↔ reMatchFull mmYYYYPattern s = true)
    ∧ (shapeMMYYYY s = false →
        ∃ e, validateDateFormat s = .error e ∧ InvalidPeriodFormat e) := by
  refine ⟨validateDateFormat_ok_iff s, ?_, ?_⟩
  · rw [validateDateFormat_ok_iff, reMatchFull_eq_shape]
  · intro hs
    refine ⟨_, validateDateFormat_error s hs, ?_⟩
    by_cases h : s = "" <;> simp [InvalidPeriodFormat, h]

/-- C2 witness: "13-2025" is accepted, "2025-01" is rejected with an
invalid-period-format error. -/
theorem validator_accepts_iff_shape_witness :
    validateDateFormat "13-2025" = .ok ()
    ∧ ∃ e, validateDateFormat "2025-01" = .error e ∧ InvalidPeriodFormat e :=
  ⟨(validator_accepts_iff_shape "13-2025").1.mpr (by decide),
   (validator_accepts_iff_shape "2025-01").2.2 (by decide)⟩

/-- C3: with both periods empty the cost operation fails with the
missing-date-range error for every user/service filter and every store,
and the store read is never issued. -/
theorem cost_missing_dates (uid : Option UUID) (sname : Option String)
    (db : String → List Param → Except String (Int × Int)) :
    serviceGetCostByPeriod "" "" uid sname db
      = (.error "at least one date parameter is required", false) := rfl

/-- C9: the generated statement has exactly as many `$` placeholders as
parameters, their indices are consecutive from `$1`, and the statement
starts with the unconditional base clause (ending in WHERE 1=1) that the
predicates are ANDed onto. -/
theorem costQuery_placeholder_invariant (startD endD : String) (uid : Option UUID)
    (sname : Option String) :
    ((getCostByPeriodQuery startD endD uid sname).1.data.count '$')
        = (getCostByPeriodQuery startD endD uid sname).2.length
    ∧ scanPlaceholders (getCostByPeriodQuery startD endD uid sname).1
        = List.range' 1 (getCostByPeriodQuery startD endD uid sname).2.length
    ∧ startsWithAux baseCostQuery.data (getCostByPeriodQuery startD endD uid sname).1.data = true
    ∧ hasSubstr "WHERE 1=1".data (getCostByPeriodQuery startD endD uid sname).1.data = true := by
  rw [builder_eq]
  refine ⟨?_, ?_, ?_, ?_⟩
  · simp only [count_queryText, specCostParams_length]
  · simp only [scan_queryText, specCostParams_length]
  · exact base_queryText _ _ _ _
  · exact where11_queryText _ _ _ _

end Subs

namespace Subs

/-- C4 counterexample: with an empty start period and a valid non-empty
end period, the operation does NOT proceed to the store read — it fails on
the unconditional start-period validation with the empty-date error. -/
theorem cost_empty_start_counterexample :
    serviceGetCostByPeriod "" "12-2025" none none (fun _ _ => .ok (0, 0))
        = (.error "date cannot be empty", false)
    ∧ validateDateFormat "12-2025" = .ok () :=
  ⟨rfl, rfl⟩

/-- C4 (amended): whenever not both periods are empty, the start period is
validated unconditionally: an empty start fails with the empty-date error
and a non-empty shape-invalid start fails with the format error, in both
cases before any store read. -/
theorem cost_start_validated_unconditionally (startD endD : String) (uid : Option UUID)
    (sname : Option String) (db : String → List Param → Except String (Int × Int))
    (hne : ¬(startD = "" ∧ endD = "")) :
    (startD = "" →
      serviceGetCostByPeriod startD endD uid sname db = (.error "date cannot be empty", false))
    ∧ (startD ≠ "" → shapeMMYYYY startD = false →
      serviceGetCostByPeriod startD endD uid sname db
        = (.error "date must be in MM-YYYY format", false)) := by
  constructor
  · intro h0
    subst h0
    rw [service_eq_validation_then_store]
    unfold costValidation
    rw [if_neg hne]
    rfl
  · intro h0 hsf
    rw [service_eq_validation_then_store]
    unfold costValidation
    rw [if_neg hne]
    rw [validateDateFormat_error startD hsf, if_neg h0]

/-- C4 witness: empty start with valid end fails before the store. -/
theorem cost_start_validated_unconditionally_witness :
    serviceGetCostByPeriod "" "12-2025" none none (fun _ _ => .ok (0, 0))
      = (.error "date cannot be empty", false) :=
  (cost_start_validated_unconditionally "" "12-2025" none none _ (by decide)).1 rfl

/-- C5 counterexample: a call with start period "13-2025" and empty end
period does NOT fail with the invalid-period-format error — the month
digits are not range-checked, so validation passes and the store's answer
is returned. -/
theorem cost_13_2025_counterexample :
    serviceGetCostByPeriod "13-2025" "" none none (fun _ _ => .ok (100, 1))
        = (.ok { totalCost := 100, count := 1 }, true) := rfl

/-- C5 (amended): a call with start period "13-2025" and empty end period
passes validation (the two digits are accepted as-is) and issues the store
read, for every filter combination and store. -/
theorem cost_13_2025_amended (uid : Option UUID) (sname : Option String)
    (db : String → List Param → Except String (Int × Int)) :
    validateDateFormat "13-2025" = .ok ()
    ∧ (serviceGetCostByPeriod "13-2025" "" uid sname db).2 = true := by
  refine ⟨rfl, ?_⟩
  rw [service_eq_validation_then_store]
  have hv : costValidation "13-2025" "" = .ok () := rfl
  rw [hv]
  rcases hr : repoGetCostByPeriod "13-2025" "" uid sname db with e | r <;> simp

/-- C7: validation failures are returned with no store read issued, and a
failing store read propagates as an error (wrapped with the operation
name) with no result value. -/
theorem cost_fail_fast_and_propagate (startD endD : String) (uid : Option UUID)
    (sname : Option String) (db : String → List Param → Except String (Int × Int)) :
    (∀ e, costValidation startD endD = .error e →
        serviceGetCostByPeriod startD endD uid sname db = (.error e, false))
    ∧ (∀ e, costValidation startD endD = .ok () →
        db (getCostByPeriodQuery startD endD uid sname).1
            (getCostByPeriodQuery startD endD uid sname).2 = .error e →
        serviceGetCostByPeriod startD endD uid sname db
          = (.error ("failed to calculate cost: " ++ e), true)) := by
  constructor
  · intro e he
    rw [service_eq_validation_then_store, he]
  · intro e hok hdb
    rw [service_eq_validation_then_store, hok]
    simp only [repoGetCostByPeriod, hdb]

/-- C7 witness: a validation failure short-circuits, a store failure is
wrapped and propagated. -/
theorem cost_fail_fast_and_propagate_witness :
    serviceGetCostByPeriod "" "" none none (fun _ _ => .ok (0, 0))
        = (.error "at least one date parameter is required", false)
    ∧ serviceGetCostByPeriod "01-2025" "" none none (fun _ _ => .error "conn refused")
        = (.error ("failed to calculate cost: " ++ "conn refused"), true) :=
  ⟨(cost_fail_fast_and_propagate "" "" none none _).1 _ rfl,
   (cost_fail_fast_and_propagate "01-2025" "" none none _).2 "conn refused" rfl rfl⟩

/-- C6: the end-period predicate (open-ended rows always match, otherwise
string >= comparison) appears in the generated statement — with its
parameter in lock-step — exactly when a non-empty end period is supplied,
conjoined with the other predicates; with an empty end period neither the
condition nor a parameter for it appears. -/
theorem cost_end_predicate (startD endD : String) (uid : Option UUID)
    (sname : Option String) :
    (endD ≠ "" →
      hasSubstr (endDateFragment (if startD = "" then 1 else 2)).data
          (getCostByPeriodQuery startD endD uid sname).1.data = true
      ∧ ((getCostByPeriodQuery startD endD uid sname).2)[(if startD = "" then 1 else 2) - 1]?
          = some (Param.pstr endD))
    ∧ (endD = "" →
      hasSubstr "end_date".data (getCostByPeriodQuery startD endD uid sname).1.data = false
      ∧ (getCostByPeriodQuery startD endD uid sname).2 = specCostParams startD "" uid sname)
    ∧ (endD ≠ "" → ∀ row : Subscription,
        rowMatchesCost startD endD uid sname row = true ↔
          (rowMatchesCost startD "" uid sname row = true
            ∧ (row.endDate = none ∨ ∃ d, row.endDate = some d ∧ endD ≤ d))) := by
  refine ⟨?_, ?_, ?_⟩
  · intro he
    rw [builder_eq]
    constructor
    · have hb : (endD != "") = true := by simpa using he
      rw [hb]
      by_cases hs : startD = ""
      · simpa [hs] using endfrag_queryText false uid.isSome sname.isSome
      · have hsb : (startD != "") = true := by simpa using hs
        simpa [hs, hsb] using endfrag_queryText true uid.isSome sname.isSome
    · by_cases hs : startD = "" <;>
        rcases uid with _ | u <;> rcases sname with _ | s <;>
        simp [specCostParams, hs, he]
  · intro he
    subst he
    rw [builder_eq]
    refine ⟨?_, rfl⟩
    simpa using endabsent_queryText (startD != "") uid.isSome sname.isSome
  · intro he row
    have hb : (endD == "") = false := by simpa using he
    rcases hre : row.endDate with _ | d <;>
      (simp [rowMatchesCost, endCondEval, hb, hre]; try tauto)

/-- C6 witness: with start and end present the fragment sits at `$2` and
the end value is the second parameter; semantics checked on an open-ended
row. -/
theorem cost_end_predicate_witness :
    hasSubstr (endDateFragment 2).data
        (getCostByPeriodQuery "01-2025" "12-2025" none none).1.data = true
    ∧ ((getCostByPeriodQuery "01-2025" "12-2025" none none).2)[1]?
        = some (Param.pstr "12-2025")
    ∧ (rowMatchesCost "01-2025" "12-2025" none none
          { id := 1, serviceName := "Netflix", price := 100, userID := ⟨7⟩,
            startDate := "01-2025", endDate := none, createdAt := 0, updatedAt := 0 } = true ↔
        (rowMatchesCost "01-2025" "" none none
            { id := 1, serviceName := "Netflix", price := 100, userID := ⟨7⟩,
              startDate := "01-2025", endDate := none, createdAt := 0, updatedAt := 0 } = true
          ∧ ((none : Option String) = none
             ∨ ∃ d, (none : Option String) = some d ∧ "12-2025" ≤ d))) := by
  have h := cost_end_predicate "01-2025" "12-2025" none none
  refine ⟨?_, ?_, ?_⟩
  · exact ((h.1 (by decide)).1 : _)
  · exact ((h.1 (by decide)).2 : _)
  · exact h.2.2 (by decide) _

end Subs

namespace Subs

/-- The creation validator succeeds exactly when every field rule holds:
non-empty service name, positive price, non-nil user id, shape-valid start
period, and shape-valid end period whenever present and non-empty. -/
lemma validateSubscriptionRequest_ok_iff (req : CreateSubscriptionRequest) :
    validateSubscriptionRequest req = .ok () ↔
      (req.serviceName ≠ "" ∧ 0 < req.price ∧ req.userID ≠ uuidNil
        ∧ shapeMMYYYY req.startDate = true
        ∧ ∀ e, req.endDate = some e → e ≠ "" → shapeMMYYYY e = true) := by
  unfold validateSubscriptionRequest
  by_cases h1 : req.serviceName = ""
  · simp [h1]
  · by_cases h2 : req.price ≤ 0
    · simp [h1, h2, not_lt.mpr h2]
    · by_cases h3 : req.userID = uuidNil
      · simp [h1, h2, h3]
      · simp only [h1, h2, h3, if_false]
        rcases hsd : validateDateFormat req.startDate with es | us
        · have hshape : shapeMMYYYY req.startDate ≠ true := by
            intro hs
            rw [(validateDateFormat_ok_iff req.startDate).mpr hs] at hsd
            cases hsd
          simp [h1, h3, hshape, not_le.mp h2]
        · have hshape : shapeMMYYYY req.startDate = true :=
            (validateDateFormat_ok_iff req.startDate).mp (by rw [hsd])
          rcases hed : req.endDate with _ | e0
          · simp [h1, h3, hshape, not_le.mp h2, hed]
          · by_cases he0 : e0 = ""
            · subst he0
              simp [h1, h3, hshape, not_le.mp h2, hed]
            · simp only [he0, if_true, hed, ne_eq, not_false_iff]
              rcases hv0 : validateDateFormat e0 with ee | ue
              · have hsh0 : shapeMMYYYY e0 ≠ true := by
                  intro hs
                  rw [(validateDateFormat_ok_iff e0).mpr hs] at hv0
                  cases hv0
                simp only [ne_eq] at *
                constructor
                · intro hc; cases hc
                · rintro ⟨-, -, -, -, h5⟩
                  exact absurd (h5 e0 rfl he0) hsh0
              · have hsh0 : shapeMMYYYY e0 = true :=
                  (validateDateFormat_ok_iff e0).mp (by rw [hv0])
                simp [h1, h3, hshape, not_le.mp h2, hed, he0, hsh0]

/-- C8: subscription creation rejects — without calling the repository —
every request with an empty service name, non-positive price, nil user id,
shape-invalid start period, or a present non-empty shape-invalid end
period; a request passing all rules is handed to the repository
unchanged. -/
theorem create_rejects_invalid (req : CreateSubscriptionRequest)
    (repo : CreateSubscriptionRequest → Except String Subscription) :
    ((req.serviceName = "" ∨ req.price ≤ 0 ∨ req.userID = uuidNil
        ∨ shapeMMYYYY req.startDate = false
        ∨ (∃ e, req.endDate = some e ∧ e ≠ "" ∧ shapeMMYYYY e = false)) →
      (serviceCreateSubscription req repo).2 = none
      ∧ ∃ msg, (serviceCreateSubscription req repo).1 = .error msg)
    ∧ (req.serviceName ≠ "" → 0 < req.price → req.userID ≠ uuidNil →
      shapeMMYYYY req.startDate = true →
      (∀ e, req.endDate = some e → e ≠ "" → shapeMMYYYY e = true) →
      serviceCreateSubscription req repo = (repo req, some req)) := by
  constructor
  · intro hbad
    rcases hv : validateSubscriptionRequest req with msg | u
    · exact ⟨by simp [serviceCreateSubscription, hv], msg, by simp [serviceCreateSubscription, hv]⟩
    · exfalso
      obtain ⟨g1, g2, g3, g4, g5⟩ := (validateSubscriptionRequest_ok_iff req).mp (by rw [hv])
      rcases hbad with h | h | h | h | ⟨e, he1, he2, he3⟩
      · exact g1 h
      · exact absurd g2 (not_lt.mpr h)
      · exact g3 h
      · rw [g4] at h; cases h
      · rw [g5 e he1 he2] at he3; cases he3
  · intro g1 g2 g3 g4 g5
    have hv : validateSubscriptionRequest req = .ok () :=
      (validateSubscriptionRequest_ok_iff req).mpr ⟨g1, g2, g3, g4, g5⟩
    simp [serviceCreateSubscription, hv]

/-- C8 witness: a fully valid request reaches the repository unchanged, a
request with an empty service name is rejected without a repository
call. -/
theorem create_rejects_invalid_witness :
    serviceCreateSubscription
        { serviceName := "Netflix", price := 100, userID := ⟨7⟩,
          startDate := "01-2025", endDate := none }
        (fun _ => .error "db down")
      = (.error "db down", some { serviceName := "Netflix", price := 100, userID := ⟨7⟩,
                                   startDate := "01-2025", endDate := none })
    ∧ (serviceCreateSubscription
        { serviceName := "", price := 100, userID := ⟨7⟩,
          startDate := "01-2025", endDate := none }
        (fun _ => .error "db down")).2 = none :=
  ⟨(create_rejects_invalid _ _).2 (by decide) (by decide) (by decide) (by decide)
      (fun e h => nomatch h),
   ((create_rejects_invalid _ _).1 (Or.inl rfl)).1⟩

/-- C10: the update operation (PATCH) enforces the full creation
validation on its request — service name, price, user id and start period
must all be present and valid, so it behaves as whole-record replacement;
any request missing one of them is rejected before the repository is
called. -/
theorem update_enforces_full_validation (id : Int) (req : UpdateSubscriptionRequest)
    (repo : Int → UpdateSubscriptionRequest → Except String Subscription) :
    ((req.serviceName = "" ∨ req.price ≤ 0 ∨ req.userID = uuidNil
        ∨ shapeMMYYYY req.startDate = false
        ∨ (∃ e, req.endDate = some e ∧ e ≠ "" ∧ shapeMMYYYY e = false)) →
      (serviceUpdateSubscription id req repo).2 = none
      ∧ ∃ msg, (serviceUpdateSubscription id req repo).1 = .error msg)
    ∧ (req.serviceName ≠ "" → 0 < req.price → req.userID ≠ uuidNil →
      shapeMMYYYY req.startDate = true →
      (∀ e, req.endDate = some e → e ≠ "" → shapeMMYYYY e = true) →
      serviceUpdateSubscription id req repo = (repo id req, some (id, req))) := by
  constructor
  · intro hbad
    rcases hv : validateSubscriptionRequest (toCreateRequest req) with msg | u
    · exact ⟨by simp [serviceUpdateSubscription, hv], msg,
        by simp [serviceUpdateSubscription, hv]⟩
    · exfalso
      obtain ⟨g1, g2, g3, g4, g5⟩ :=
        (validateSubscriptionRequest_ok_iff (toCreateRequest req)).mp (by rw [hv])
      simp only [toCreateRequest] at g1 g2 g3 g4 g5
      rcases hbad with h | h | h | h | ⟨e, he1, he2, he3⟩
      · exact g1 h
      · exact absurd g2 (not_lt.mpr h)
      · exact g3 h
      · rw [g4] at h; cases h
      · rw [g5 e he1 he2] at he3; cases he3
  · intro g1 g2 g3 g4 g5
    have hv : validateSubscriptionRequest (toCreateRequest req) = .ok () :=
      (validateSubscriptionRequest_ok_iff (toCreateRequest req)).mpr
        ⟨g1, g2, g3, g4, g5⟩
    simp [serviceUpdateSubscription, hv]

/-- C10 witness: an update omitting the start period is rejected with no
repository call; a fully valid update reaches the repository. -/
theorem update_enforces_full_validation_witness :
    (serviceUpdateSubscription 1
        { serviceName := "Netflix", price := 150, userID := ⟨7⟩,
          startDate := "", endDate := none }
        (fun _ _ => .error "db down")).2 = none
    ∧ serviceUpdateSubscription 1
        { serviceName := "Netflix", price := 150, userID := ⟨7⟩,
          startDate := "01-2025", endDate := some "12-2025" }
        (fun _ _ => .error "db down")
      = (.error "db down",
         some (1, { serviceName := "Netflix", price := 150, userID := ⟨7⟩,
                    startDate := "01-2025", endDate := some "12-2025" })) :=
  ⟨((update_enforces_full_validation 1 _ _).1 (by
      refine Or.inr (Or.inr (Or.inr (Or.inl ?_)))
      decide)).1,
   (update_enforces_full_validation 1 _ _).2 (by decide) (by decide) (by decide) (by decide)
      (by intro e h he; cases h; decide)⟩

end Subs
